import Mathlib

/-!
# Verification of the sunside geospatial shadow-determination engine

Shallow embedding, over exact real arithmetic, of the core of the
`novigado/sunside` repository:

* `city/shadow_analyzer/buildings/shadow_analyzer.py` — ray casting
  (`ShadowAnalyzer`): Möller–Trumbore ray/triangle intersection, per-mesh
  fan triangulation, closest-hit tracking, single-point and grid queries;
* `city/shadow_analyzer/buildings/geometry_converter.py` — GPS → scene
  projection and extruded building-mesh construction
  (`BuildingGeometryConverter`);
* `city/shadow_analyzer/buildings/terrain_generator.py` — terrain grid
  georeferencing and the scene → GPS inverse mapping
  (`TerrainMeshGenerator`);
* `city/shadow_analyzer/sun/sun_calculator.py` — sun position astronomy
  (`SunCalculator`);
* `city/shadow_analyzer/api/api_server.py` — the shadow-query decision
  logic (night-time short-circuit, then ray cast).

Python floats are modelled as real numbers; Python `math.asin` / `math.acos`
domain errors are modelled by `Option`-valued functions that fail outside
`[-1, 1]`; Python exceptions that abort a call are modelled by `Option`
results.  Stage/USD state (mesh storage) is made explicit: the meshes a
query sees are passed as a list.
-/

namespace Sunside

noncomputable section

/-- `math.radians`. -/
def radians (x : ℝ) : ℝ := x * Real.pi / 180

/-- `math.degrees`. -/
def degrees (x : ℝ) : ℝ := x * 180 / Real.pi

/-- A 3-D vector, the embedding of `Gf.Vec3f` (reals in place of floats). -/
structure Vec3 where
  x : ℝ
  y : ℝ
  z : ℝ

/-- `ShadowAnalyzer._ray_triangle_intersect` (shadow_analyzer.py, lines
185-253): Möller–Trumbore ray/triangle intersection.  Returns the distance
along the ray, or `none` when there is no accepted intersection. -/
def ray_triangle_intersect (ray_origin ray_direction v0 v1 v2 : Vec3) :
    Option ℝ :=
  let epsilon : ℝ := 1e-6
  let edge1 : Vec3 := ⟨v1.x - v0.x, v1.y - v0.y, v1.z - v0.z⟩
  let edge2 : Vec3 := ⟨v2.x - v0.x, v2.y - v0.y, v2.z - v0.z⟩
  let h : Vec3 :=
    ⟨ray_direction.y * edge2.z - ray_direction.z * edge2.y,
     ray_direction.z * edge2.x - ray_direction.x * edge2.z,
     ray_direction.x * edge2.y - ray_direction.y * edge2.x⟩
  let a := edge1.x * h.x + edge1.y * h.y + edge1.z * h.z
  if |a| < epsilon then none
  else
    let f := 1.0 / a
    let s : Vec3 :=
      ⟨ray_origin.x - v0.x, ray_origin.y - v0.y, ray_origin.z - v0.z⟩
    let u := f * (s.x * h.x + s.y * h.y + s.z * h.z)
    if u < 0.0 ∨ u > 1.0 then none
    else
      let q : Vec3 :=
        ⟨s.y * edge1.z - s.z * edge1.y,
         s.z * edge1.x - s.x * edge1.z,
         s.x * edge1.y - s.y * edge1.x⟩
      let v := f * (ray_direction.x * q.x + ray_direction.y * q.y +
        ray_direction.z * q.z)
      if v < 0.0 ∨ u + v > 1.0 then none
      else
        let t := f * (edge2.x * q.x + edge2.y * q.y + edge2.z * q.z)
        if t > epsilon then some t else none

/-- Vertex lookup `points[k]`.  Python raises `IndexError` out of range; the
meshes built by the converter only ever index in range, so a default vertex
stands in for the error case. -/
def pointAt (points : List Vec3) (k : ℕ) : Vec3 := points.getD k ⟨0, 0, 0⟩

/-- The fan triangulation of one face in `ShadowAnalyzer._intersect_mesh`
(shadow_analyzer.py, lines 161-174): for `i in range(1, face_count - 1)` the
triangle `(points[face_verts[0]], points[face_verts[i]],
points[face_verts[i+1]])`.  A face with fewer than 3 vertices contributes no
triangles (the `continue` on line 167: `face_count - 2 = 0` in ℕ). -/
def fan_tris (points : List Vec3) (face_count : ℕ) (face_verts : List ℕ) :
    List (Vec3 × Vec3 × Vec3) :=
  (List.range' 1 (face_count - 2)).map fun i =>
    (pointAt points (face_verts.getD 0 0),
     pointAt points (face_verts.getD i 0),
     pointAt points (face_verts.getD (i + 1) 0))

/-- All triangles `_intersect_mesh` tests, in order: the loop slices
`face_indices[index_offset : index_offset + face_count]` per face, which is
the `take`/`drop` recursion over `face_counts`. -/
def mesh_triangles (points : List Vec3) :
    List ℕ → List ℕ → List (Vec3 × Vec3 × Vec3)
  | [], _ => []
  | fc :: rest, face_indices =>
      fan_tris points fc (face_indices.take fc) ++
        mesh_triangles points rest (face_indices.drop fc)

/-- `if closest_t is None or t < closest_t: closest_t = t`
(shadow_analyzer.py, line 180): lower the running closest distance. -/
def closer (closest : Option ℝ) (t : ℝ) : Option ℝ :=
  match closest with
  | none => some t
  | some c => if t < c then some t else some c

/-- The closest-hit update in `_intersect_mesh` (shadow_analyzer.py, lines
177-181): a triangle hit `t` is accepted only when `0 < t < max_distance`,
and then `closest_t` is lowered to it. -/
def hit_step (ray_origin ray_direction : Vec3) (max_distance : ℝ)
    (closest : Option ℝ) (tri : Vec3 × Vec3 × Vec3) : Option ℝ :=
  match ray_triangle_intersect ray_origin ray_direction tri.1 tri.2.1
      tri.2.2 with
  | some t =>
      if 0 < t ∧ t < max_distance then closer closest t
      else closest
  | none => closest

/-- `ShadowAnalyzer._intersect_mesh` (shadow_analyzer.py, lines 133-183):
fold the closest-hit update over every fan triangle of every face. -/
def intersect_mesh (ray_origin ray_direction : Vec3) (points : List Vec3)
    (face_counts face_indices : List ℕ) (max_distance : ℝ) : Option ℝ :=
  (mesh_triangles points face_counts face_indices).foldl
    (hit_step ray_origin ray_direction max_distance) none

/-- One building mesh as stored on the stage under `/World/Buildings`:
prim path, `points`, `faceVertexCounts`, `faceVertexIndices`. -/
structure Mesh where
  path : String
  points : List Vec3
  face_counts : List ℕ
  face_indices : List ℕ

/-- `ShadowAnalyzer._cast_ray_against_buildings` (shadow_analyzer.py, lines
69-131).  The stage traversal is made explicit as a list of meshes;
`closest_distance` starts at `max_distance` and only strictly closer mesh
hits replace the running best. -/
def cast_ray_against_buildings (origin direction : Vec3)
    (meshes : List Mesh) (max_distance : ℝ) : Option (ℝ × String) :=
  (meshes.foldl
    (fun acc m =>
      match intersect_mesh origin direction m.points m.face_counts
          m.face_indices max_distance with
      | some hit_distance =>
          if hit_distance < acc.1 then
            (hit_distance, some (hit_distance, m.path))
          else acc
      | none => acc)
    ((max_distance, none) : ℝ × Option (ℝ × String))).2

/-- The ray direction cast in `ShadowAnalyzer.is_point_in_shadow`
(shadow_analyzer.py, lines 41-51): negate the sun direction and normalize it
when its length is positive. -/
def shadow_ray_direction (sun_direction : Vec3) : Vec3 :=
  let rd : Vec3 := ⟨-sun_direction.x, -sun_direction.y, -sun_direction.z⟩
  let length := Real.sqrt (rd.x ^ 2 + rd.y ^ 2 + rd.z ^ 2)
  if length > 0 then ⟨rd.x / length, rd.y / length, rd.z / length⟩ else rd

/-- The ray origin in `is_point_in_shadow` (shadow_analyzer.py, line 54):
the query point lifted 0.1 m to avoid self-intersection. -/
def shadow_ray_origin (point : Vec3) : Vec3 :=
  ⟨point.x, point.y + 0.1, point.z⟩

/-- `ShadowAnalyzer.is_point_in_shadow` (shadow_analyzer.py, lines 22-67). -/
def is_point_in_shadow (point sun_direction : Vec3) (max_distance : ℝ)
    (meshes : List Mesh) : Bool × Option String :=
  match cast_ray_against_buildings (shadow_ray_origin point)
      (shadow_ray_direction sun_direction) meshes max_distance with
  | some (_, hit_path) => (true, some hit_path)
  | none => (false, none)

/-- `ShadowAnalyzer.analyze_grid` (shadow_analyzer.py, lines 255-294): the
`grid_size × grid_size` lattice of single-point queries (each at the default
`max_distance = 10000.0`), together with the aggregate shadow percentage the
method computes from the results (lines 286-287). -/
def analyze_grid (center : Vec3) (grid_size : ℕ) (grid_spacing : ℝ)
    (sun_direction : Vec3) (meshes : List Mesh) :
    List (Vec3 × Bool) × ℝ :=
  let half_extent := ((grid_size : ℝ) - 1) * grid_spacing / 2.0
  let results := (List.range grid_size).flatMap fun i : ℕ =>
    (List.range grid_size).map fun j : ℕ =>
      let x := center.x - half_extent + (i : ℝ) * grid_spacing
      let z := center.z - half_extent + (j : ℝ) * grid_spacing
      let point : Vec3 := ⟨x, center.y, z⟩
      (point, (is_point_in_shadow point sun_direction 10000.0 meshes).1)
  let shadowed_count := (results.filter fun r => r.2).length
  let shadow_percentage := ((shadowed_count : ℝ) / (results.length : ℝ)) * 100
  (results, shadow_percentage)

/-- `BuildingGeometryConverter` session state (geometry_converter.py, lines
20-21): the reference point, `None` until set. -/
structure BuildingGeometryConverter where
  reference_lat : Option ℝ
  reference_lon : Option ℝ

/-- A freshly constructed converter (`__init__`, lines 12-21). -/
def initConverter : BuildingGeometryConverter := ⟨none, none⟩

/-- `BuildingGeometryConverter.set_reference_point` (lines 23-39); the scene
metadata write is stage plumbing and carries the same two numbers. -/
def set_reference_point (_c : BuildingGeometryConverter)
    (latitude longitude : ℝ) : BuildingGeometryConverter :=
  ⟨some latitude, some longitude⟩

/-- The projection formula of `gps_to_scene_coords` (geometry_converter.py,
lines 87-98), applied once the reference point is known.  The
meters-per-longitude-degree factor uses the cosine of the *queried point's*
latitude (line 93: `math.cos(math.radians(lat))`). -/
def scene_xz (reference_lat reference_lon lat lon : ℝ) : ℝ × ℝ :=
  let lat_diff := lat - reference_lat
  let lon_diff := lon - reference_lon
  let meters_per_lat_degree : ℝ := 111000.0
  let meters_per_lon_degree : ℝ := 111000.0 * Real.cos (radians lat)
  (-(lon_diff * meters_per_lon_degree), lat_diff * meters_per_lat_degree)

/-- `BuildingGeometryConverter.gps_to_scene_coords` (lines 72-98): raises
`ValueError("Reference point not set...")` — modelled as `none` — when no
reference point is set. -/
def gps_to_scene_coords (c : BuildingGeometryConverter) (lat lon : ℝ) :
    Option (ℝ × ℝ) :=
  match c.reference_lat, c.reference_lon with
  | some rlat, some rlon => some (scene_xz rlat rlon lat lon)
  | _, _ => none

/-- `BuildingGeometryConverter.get_terrain_elevation_at_point` (lines
451-494): the elevation of the terrain vertex nearest in XZ, or 0.0 when no
terrain exists.  The running minimum starts at `float('inf')`, modelled by
`none`. -/
def get_terrain_elevation_at_point (terrain_points : List Vec3)
    (x z : ℝ) : ℝ :=
  match terrain_points.foldl
      (fun (best : Option (ℝ × ℝ)) p =>
        let dx := p.x - x
        let dz := p.z - z
        let dist_sq := dx * dx + dz * dz
        match best with
        | none => some (dist_sq, p.y)
        | some b => if dist_sq < b.1 then some (dist_sq, p.y) else some b)
      none with
  | some b => b.2
  | none => 0.0

/-- One OSM building record as consumed by the converter: id, footprint as
(lat, lon) pairs, height in meters, and category tag (the tag only selects a
display color, which is visualization-only). -/
structure Building where
  id : String
  coordinates : List (ℝ × ℝ)
  height : ℝ
  btype : String

/-- `BuildingGeometryConverter.create_building_mesh` (lines 100-188).
Returns `none` when the footprint has fewer than 3 points (lines 122-124)
or when projecting raises because no reference point is set (the exception
is caught on line 186 and `None` returned).  Otherwise the extruded mesh:
bottom ring at the averaged terrain elevation, top ring `height` above it,
a reverse-wound bottom cap, a forward-wound top cap, and one quad per side
(lines 144-177). -/
def create_building_mesh (c : BuildingGeometryConverter)
    (terrain_points : List Vec3) (building : Building) : Option Mesh :=
  if building.coordinates.length < 3 then none
  else
    match c.reference_lat, c.reference_lon with
    | some rlat, some rlon =>
        let scene_coords := building.coordinates.map fun p =>
          scene_xz rlat rlon p.1 p.2
        let total_elevation := (scene_coords.map fun q =>
          get_terrain_elevation_at_point terrain_points q.1 q.2).sum
        let base_elevation := total_elevation / (scene_coords.length : ℝ)
        let bottom := scene_coords.map fun q =>
          (⟨q.1, base_elevation, q.2⟩ : Vec3)
        let top := scene_coords.map fun q =>
          (⟨q.1, base_elevation + building.height, q.2⟩ : Vec3)
        let num_verts := scene_coords.length
        let bottom_face := (List.range num_verts).reverse
        let top_face := (List.range num_verts).map (· + num_verts)
        let side_faces := (List.range num_verts).flatMap fun i =>
          [i, (i + 1) % num_verts, (i + 1) % num_verts + num_verts,
           i + num_verts]
        some
          { path := "/World/Buildings/Building_" ++ building.id
            points := bottom ++ top
            face_counts := num_verts :: num_verts :: List.replicate num_verts 4
            face_indices := bottom_face ++ top_face ++ side_faces }
    | _, _ => none

/-- `BuildingGeometryConverter.create_buildings_from_data` (lines 212-244):
set the reference point, then create each building, skipping the ones whose
creation returns `None`.  The code returns the created prim paths while the
meshes live on the stage; here the built mesh set itself is returned, one
mesh per returned path. -/
def create_buildings_from_data (c : BuildingGeometryConverter)
    (terrain_points : List Vec3) (buildings : List Building)
    (reference_lat reference_lon : ℝ) : List Mesh :=
  let c2 := set_reference_point c reference_lat reference_lon
  buildings.filterMap (create_building_mesh c2 terrain_points)

/-- Python `int(...)` applied to a float: truncation toward zero. -/
def trunc (x : ℝ) : ℤ := if 0 ≤ x then ⌊x⌋ else ⌈x⌉

/-- `TerrainMeshGenerator` state after `create_terrain_mesh` stored the grid
and its georeferencing (terrain_generator.py, lines 56-63);
`elevation_grid` is `None` before any terrain load. -/
structure TerrainMeshGenerator where
  elevation_grid : Option (List (List ℝ))
  center_lat : ℝ
  center_lon : ℝ
  lat_spacing : ℝ
  lon_spacing : ℝ
  reference_lat : ℝ
  reference_lon : ℝ

/-- `self.meters_per_lon_degree` as set on line 63 of terrain_generator.py:
`111000.0 * math.cos(math.radians(reference_lat))`. -/
def TerrainMeshGenerator.meters_per_lon_degree
    (g : TerrainMeshGenerator) : ℝ :=
  111000.0 * Real.cos (radians g.reference_lat)

/-- The forward mapping `create_terrain_mesh` applies to place a grid vertex
of latitude `lat`, longitude `lon` in the scene (terrain_generator.py, lines
95-99): `x = lon_diff * meters_per_lon_degree`,
`z = -(lat_diff * 111000)`. -/
def terrain_vertex_xz (g : TerrainMeshGenerator) (lat lon : ℝ) : ℝ × ℝ :=
  let lat_diff := lat - g.reference_lat
  let lon_diff := lon - g.reference_lon
  (lon_diff * g.meters_per_lon_degree, -(lat_diff * 111000.0))

/-- The scene → GPS recovery inside `get_elevation_at_scene_coords`
(terrain_generator.py, lines 196-201): `lon_diff = x / meters_per_lon_degree`,
`lat_diff = -z / 111000`, added back to the reference point.  Returns
(latitude, longitude). -/
def scene_to_gps (g : TerrainMeshGenerator) (x z : ℝ) : ℝ × ℝ :=
  let lon_diff := x / g.meters_per_lon_degree
  let lat_diff := -z / 111000.0
  (g.reference_lat + lat_diff, g.reference_lon + lon_diff)

/-- `TerrainMeshGenerator.get_elevation_at_scene_coords` (lines 180-232):
recover GPS, truncate to grid indices, return the stored sample when in
bounds and 0.0 otherwise (the out-of-bounds warning is rate-limited
logging). -/
def get_elevation_at_scene_coords (g : TerrainMeshGenerator)
    (x z : ℝ) : ℝ :=
  match g.elevation_grid with
  | none => 0.0
  | some grid =>
      let gps := scene_to_gps g x z
      let rows := grid.length
      let cols := (grid.headD []).length
      let grid_lat_min := g.center_lat - g.lat_spacing * ((rows : ℝ) - 1) / 2
      let grid_lon_min := g.center_lon - g.lon_spacing * ((cols : ℝ) - 1) / 2
      let i := trunc ((gps.1 - grid_lat_min) / g.lat_spacing)
      let j := trunc ((gps.2 - grid_lon_min) / g.lon_spacing)
      if 0 ≤ i ∧ i < (rows : ℤ) ∧ 0 ≤ j ∧ j < (cols : ℤ) then
        (grid.getD i.toNat []).getD j.toNat 0.0
      else 0.0

/-- Python float `%` with a positive modulus, as in `x % 360.0`: floored
remainder. -/
def fmod (x m : ℝ) : ℝ := x - m * ⌊x / m⌋

/-- `math.atan2 y x`: the argument of the complex number `x + y·i`.  Total. -/
def atan2 (y x : ℝ) : ℝ := Complex.arg ⟨x, y⟩

/-- `math.asin`, which raises a `ValueError` (math domain error) outside
`[-1, 1]`; the failure is modelled as `none`. -/
def pyasin (x : ℝ) : Option ℝ :=
  if |x| ≤ 1 then some (Real.arcsin x) else none

/-- `math.acos`, likewise partial outside `[-1, 1]`. -/
def pyacos (x : ℝ) : Option ℝ :=
  if |x| ≤ 1 then some (Real.arccos x) else none

/-- The clamp on line 97 of sun_calculator.py:
`max(-1.0, min(1.0, cos_az))`. -/
def clamp1 (x : ℝ) : ℝ := max (-1.0) (min 1.0 x)

/-- `SunCalculator._get_julian_date` (sun_calculator.py, lines 111-123); the
UTC instant is its calendar fields, and `//` is Python floor division. -/
def get_julian_date (year month day hour minute second : ℤ) : ℝ :=
  let a := Int.fdiv (14 - month) 12
  let y := year + 4800 - a
  let m := month + 12 * a - 3
  let jdn := day + Int.fdiv (153 * m + 2) 5 + 365 * y + Int.fdiv y 4 -
    Int.fdiv y 100 + Int.fdiv y 400 - 32045
  (jdn : ℝ) + ((hour : ℝ) - 12) / 24.0 + (minute : ℝ) / 1440.0 +
    (second : ℝ) / 86400.0

/-- `SunCalculator._get_local_sidereal_time` (lines 125-138), in radians. -/
def get_local_sidereal_time (year month day hour minute second : ℤ)
    (longitude : ℝ) : ℝ :=
  let jd := get_julian_date year month day hour minute second
  let t := (jd - 2451545.0) / 36525.0
  let gst := fmod (280.46061837 + 360.98564736629 * (jd - 2451545.0) +
    0.000387933 * t * t - t * t * t / 38710000.0) 360.0
  let lst := fmod (gst + longitude) 360.0
  radians lst

/-- `SunCalculator.calculate_sun_position` (sun_calculator.py, lines
25-109), over exact reals.  The `math.asin` calls on lines 76, 90 and 94 and
the `math.acos` call on line 98 are domain-checked (`Option`-valued); only
the `acos` argument is clamped first (line 97).  The divisions are
mathematically well-defined at every step reached (the Möller–Trumbore-style
guard pattern does not apply here; Lean's total division stands in for float
division, whose denominators are nonzero in float arithmetic). -/
def calculate_sun_position (latitude longitude : ℝ)
    (year month day hour minute second : ℤ) : Option (ℝ × ℝ × ℝ) :=
  let jd := get_julian_date year month day hour minute second
  let t := (jd - 2451545.0) / 36525.0
  let l := fmod (280.460 + 36000.771 * t) 360.0
  let g := radians (fmod (357.528 + 35999.050 * t) 360.0)
  let lambda_sun :=
    radians (fmod (l + 1.915 * Real.sin g + 0.020 * Real.sin (2 * g)) 360.0)
  let epsilon := radians (23.439 - 0.013 * t)
  let ra := atan2 (Real.cos epsilon * Real.sin lambda_sun)
    (Real.cos lambda_sun)
  do
    let dec ← pyasin (Real.sin epsilon * Real.sin lambda_sun)
    let lst := get_local_sidereal_time year month day hour minute second
      longitude
    let ha := lst - ra
    let lat_rad := radians latitude
    let sin_el := Real.sin lat_rad * Real.sin dec +
      Real.cos lat_rad * Real.cos dec * Real.cos ha
    let el ← pyasin sin_el
    let elevation := degrees el
    let el2 ← pyasin sin_el
    let cos_az0 := (Real.sin dec - Real.sin lat_rad * sin_el) /
      (Real.cos lat_rad * Real.cos el2)
    let cos_az := clamp1 cos_az0
    let az ← pyacos cos_az
    let azimuth0 := degrees az
    let azimuth := if Real.sin ha > 0 then 360.0 - azimuth0 else azimuth0
    some (azimuth, elevation, 1.0)

/-- The same computation with *every* inverse-trigonometric argument clamped
to `[-1, 1]` before evaluation, following the spec's words ("inverse-trig
inputs are clamped to [-1,1] before evaluation").  Total by construction;
to be compared with `calculate_sun_position`. -/
def calculate_sun_position_clamped (latitude longitude : ℝ)
    (year month day hour minute second : ℤ) : ℝ × ℝ × ℝ :=
  let jd := get_julian_date year month day hour minute second
  let t := (jd - 2451545.0) / 36525.0
  let l := fmod (280.460 + 36000.771 * t) 360.0
  let g := radians (fmod (357.528 + 35999.050 * t) 360.0)
  let lambda_sun :=
    radians (fmod (l + 1.915 * Real.sin g + 0.020 * Real.sin (2 * g)) 360.0)
  let epsilon := radians (23.439 - 0.013 * t)
  let ra := atan2 (Real.cos epsilon * Real.sin lambda_sun)
    (Real.cos lambda_sun)
  let dec := Real.arcsin (clamp1 (Real.sin epsilon * Real.sin lambda_sun))
  let lst := get_local_sidereal_time year month day hour minute second
    longitude
  let ha := lst - ra
  let lat_rad := radians latitude
  let sin_el := Real.sin lat_rad * Real.sin dec +
    Real.cos lat_rad * Real.cos dec * Real.cos ha
  let elevation := degrees (Real.arcsin (clamp1 sin_el))
  let cos_az0 := (Real.sin dec - Real.sin lat_rad * sin_el) /
    (Real.cos lat_rad * Real.cos (Real.arcsin (clamp1 sin_el)))
  let cos_az := clamp1 cos_az0
  let azimuth0 := degrees (Real.arccos cos_az)
  let azimuth := if Real.sin ha > 0 then 360.0 - azimuth0 else azimuth0
  (azimuth, elevation, 1.0)

/-- `SunCalculator.get_sun_direction_vector` (lines 140-162): the unit
vector pointing from the sun toward the observer. -/
def get_sun_direction_vector (azimuth elevation : ℝ) : Vec3 :=
  let az_rad := radians azimuth
  let el_rad := radians elevation
  ⟨Real.cos el_rad * Real.sin az_rad, -Real.sin el_rad,
   -(Real.cos el_rad * Real.cos az_rad)⟩

/-- The decision logic of the `/api/v1/shadow/query` endpoint (api_server.py,
lines 282-360) together with the main-thread `_perform_shadow_check` it
queues (lines 153-208): with the sun elevation at or below 0 the endpoint
replies shadowed with no blocking object before queuing any ray test (lines
291-302); otherwise the query point is projected to the scene, placed at a
standing height of 1.5 m, and ray-cast against the buildings with
`max_distance = 10000.0`.  The cross-thread queue is transport plumbing,
modelled as a direct call; a missing reference point is the endpoint's error
reply `(False, None, message)`, modelled `(false, none)`. -/
def query_shadow (latitude longitude azimuth elevation : ℝ)
    (c : BuildingGeometryConverter) (meshes : List Mesh) :
    Bool × Option String :=
  if elevation ≤ 0 then (true, none)
  else
    match gps_to_scene_coords c latitude longitude with
    | some (query_x, query_z) =>
        is_point_in_shadow ⟨query_x, 1.5, query_z⟩
          (get_sun_direction_vector azimuth elevation) 10000.0 meshes
    | none => (false, none)

end

/-- The projection as the spec's words state it (§4.2): `z = Δlat · 111000`
and `x = −Δlon · 111000 · cos(referenceLatitude)` — the longitude factor
built from the *reference* latitude.  For comparison with the code's
`scene_xz` / `gps_to_scene_coords`. -/
noncomputable def to_local_spec (reference_lat reference_lon lat lon : ℝ) :
    ℝ × ℝ :=
  (-((lon - reference_lon) *
      (111000.0 * Real.cos (radians reference_lat))),
   (lat - reference_lat) * 111000.0)

/-- C5: for the triangle with vertices (0,0,0), (1,0,0), (0,0,1) and the ray
with origin (0.2, 1, 0.2) and direction (0, -1, 0), the ray/triangle
intersection routine returns a hit at distance 1.0 (exactly, in real
arithmetic, hence within 1e-6). -/
theorem c5_ray_triangle_unit_hit :
    ray_triangle_intersect ⟨0.2, 1, 0.2⟩ ⟨0, -1, 0⟩ ⟨0, 0, 0⟩ ⟨1, 0, 0⟩
      ⟨0, 0, 1⟩ = some 1 := by
  norm_num [ray_triangle_intersect]

/-- C1: whenever the upstream sun elevation is ≤ 0, the shadow query replies
shadowed = true with no blocking mesh id, for every query point, mesh set
and converter state — the nighttime short-circuit fires before any ray
test. -/
theorem c1_night_short_circuit (latitude longitude azimuth elevation : ℝ)
    (c : BuildingGeometryConverter) (meshes : List Mesh)
    (h : elevation ≤ 0) :
    query_shadow latitude longitude azimuth elevation c meshes =
      (true, none) := by
  simp [query_shadow, h]

/-- Witness for C1 at a concrete nighttime input. -/
theorem c1_night_short_circuit_witness :
    (-5 : ℝ) ≤ 0 ∧
      query_shadow 52.5 13.4 180 (-5) initConverter [] = (true, none) :=
  ⟨by norm_num,
   c1_night_short_circuit 52.5 13.4 180 (-5) initConverter [] (by norm_num)⟩

/-- C7: projecting before any reference point is set fails (the
`ValueError`, the spec's ConfigurationError — no default reference is
substituted), and once a reference point has been set the projection
succeeds. -/
theorem c7_reference_required (lat lon rlat rlon : ℝ) :
    gps_to_scene_coords initConverter lat lon = none ∧
      (gps_to_scene_coords (set_reference_point initConverter rlat rlon)
        lat lon).isSome := by
  exact ⟨rfl, by simp [gps_to_scene_coords, set_reference_point]⟩

/-- C3 counterexample: with the reference at latitude 60°, projecting the
point (0°, 1°) yields x = −111000 (the code scales by cos of the queried
point's latitude, 0°), while the spec's formula with cos of the reference
latitude gives x = −55500. -/
theorem c3_point_latitude_counterexample :
    gps_to_scene_coords (set_reference_point initConverter 60 0) 0 1 ≠
      some (to_local_spec 60 0 0 1) := by
  have h60 : radians 60 = Real.pi / 3 := by unfold radians; ring
  have hcos : Real.cos (radians 60) = 1 / 2 := by
    rw [h60, Real.cos_pi_div_three]
  intro h
  simp only [gps_to_scene_coords, set_reference_point, scene_xz,
    to_local_spec, Option.some_inj, Prod.mk.injEq] at h
  rw [hcos] at h
  have h0 : Real.cos (radians 0) = 1 := by simp [radians]
  rw [h0] at h
  norm_num at h

/-- C3 (amended): `to_local` returns z = (lat − referenceLatitude) · 111000
and x = −(lon − referenceLongitude) · 111000 · cos(lat) — the
meters-per-longitude-degree factor uses the cosine of the *queried point's*
latitude, not the reference latitude. -/
theorem c3_projection_formula (rlat rlon lat lon : ℝ) :
    gps_to_scene_coords (set_reference_point initConverter rlat rlon)
      lat lon =
      some (-((lon - rlon) * (111000.0 * Real.cos (radians lat))),
            (lat - rlat) * 111000.0) := rfl

/-- C4 counterexample: reference (45°, 0°), query point (45.01°, 0°), about
1.1 km north.  Projecting with `gps_to_scene_coords` and mapping back with
the terrain generator's inverse recovers latitude 44.99° — 0.02° (≈ 2220 m)
away from the original, far beyond 1 cm: the two conventions disagree on
the sign of both axes. -/
theorem c4_roundtrip_counterexample :
    (scene_to_gps ⟨none, 45, 0, 0.001, 0.001, 45, 0⟩
        (scene_xz 45 0 45.01 0).1 (scene_xz 45 0 45.01 0).2).1 = 44.99 ∧
      ¬ |((scene_to_gps ⟨none, 45, 0, 0.001, 0.001, 45, 0⟩
          (scene_xz 45 0 45.01 0).1 (scene_xz 45 0 45.01 0).2).1 - 45.01) *
            111000.0| ≤ 0.01 := by
  constructor
  · norm_num [scene_to_gps, scene_xz,
      TerrainMeshGenerator.meters_per_lon_degree]
  · norm_num [scene_to_gps, scene_xz,
      TerrainMeshGenerator.meters_per_lon_degree, abs_le]

/-- C4 (amended): the terrain generator's own forward placement
(x = Δlon · 111000 · cos(referenceLatitude), z = −Δlat · 111000) composed
with its inverse recovers the original GeoPoint *exactly* — hence within
1 cm — whenever cos(referenceLatitude) ≠ 0; it is the building converter's
forward projection that is incompatible with this inverse. -/
theorem c4_terrain_roundtrip (g : TerrainMeshGenerator) (lat lon : ℝ)
    (h : Real.cos (radians g.reference_lat) ≠ 0) :
    scene_to_gps g (terrain_vertex_xz g lat lon).1
      (terrain_vertex_xz g lat lon).2 = (lat, lon) := by
  unfold scene_to_gps terrain_vertex_xz
    TerrainMeshGenerator.meters_per_lon_degree
  rw [Prod.mk.injEq]
  constructor
  · field_simp
  · field_simp

/-- Witness for C4 (amended) at reference latitude 0°. -/
theorem c4_terrain_roundtrip_witness :
    Real.cos (radians (0 : ℝ)) ≠ 0 ∧
      scene_to_gps ⟨none, 0, 0, 1, 1, 0, 0⟩
        (terrain_vertex_xz ⟨none, 0, 0, 1, 1, 0, 0⟩ 0.01 0.02).1
        (terrain_vertex_xz ⟨none, 0, 0, 1, 1, 0, 0⟩ 0.01 0.02).2 =
        (0.01, 0.02) := by
  have h : Real.cos (radians (0 : ℝ)) ≠ 0 := by simp [radians]
  exact ⟨h, c4_terrain_roundtrip ⟨none, 0, 0, 1, 1, 0, 0⟩ 0.01 0.02 h⟩

/-- C6: building a mesh set skips every building whose footprint has fewer
than 3 points (it produces no mesh) without aborting the batch, and the
number of meshes built equals the number of input footprints with at least
3 points. -/
theorem c6_mesh_count (c : BuildingGeometryConverter)
    (terrain_points : List Vec3) (buildings : List Building)
    (rlat rlon : ℝ) :
    (∀ b ∈ buildings, b.coordinates.length < 3 →
        create_building_mesh (set_reference_point c rlat rlon)
          terrain_points b = none) ∧
      (create_buildings_from_data c terrain_points buildings rlat
          rlon).length =
        (buildings.filter fun b => 3 ≤ b.coordinates.length).length := by
  constructor
  · intro b _ hb
    simp [create_building_mesh, hb]
  · simp only [create_buildings_from_data, set_reference_point]
    induction buildings with
    | nil => rfl
    | cons b bs ih =>
        by_cases hb : b.coordinates.length < 3
        · have h2 : ¬ (3 ≤ b.coordinates.length) := by omega
          simp [List.filterMap_cons, List.filter_cons, create_building_mesh,
            hb, h2, ih]
        · have h2 : 3 ≤ b.coordinates.length := by omega
          simp [List.filterMap_cons, List.filter_cons, create_building_mesh,
            hb, h2, ih]

/-- With a zero ray direction the Möller–Trumbore determinant vanishes, so
every triangle is rejected as parallel. -/
theorem ray_triangle_intersect_zero_dir (o v0 v1 v2 : Vec3) :
    ray_triangle_intersect o ⟨0, 0, 0⟩ v0 v1 v2 = none := by
  norm_num [ray_triangle_intersect]

/-- Folding the closest-hit update with a zero ray direction changes
nothing. -/
theorem foldl_hit_step_zero_dir (o : Vec3) (maxD : ℝ)
    (tris : List (Vec3 × Vec3 × Vec3)) (acc : Option ℝ) :
    tris.foldl (hit_step o ⟨0, 0, 0⟩ maxD) acc = acc := by
  induction tris generalizing acc with
  | nil => rfl
  | cons tri tris ih =>
      rw [List.foldl_cons]
      have hstep : hit_step o ⟨0, 0, 0⟩ maxD acc tri = acc := by
        unfold hit_step
        rw [ray_triangle_intersect_zero_dir]
      rw [hstep]
      exact ih acc

/-- C10: the single-point shadow query is total at the zero sun direction:
the normalization is skipped (length 0 fails the positivity guard) and the
degenerate zero ray is rejected as parallel by every triangle's determinant
test, so the query returns (false, none) for every point, distance bound
and mesh set. -/
theorem c10_zero_sun_direction (point : Vec3) (max_distance : ℝ)
    (meshes : List Mesh) :
    is_point_in_shadow point ⟨0, 0, 0⟩ max_distance meshes =
      (false, none) := by
  have hdir : shadow_ray_direction ⟨0, 0, 0⟩ = ⟨0, 0, 0⟩ := by
    norm_num [shadow_ray_direction, Real.sqrt_zero]
  have hcast : cast_ray_against_buildings (shadow_ray_origin point)
      ⟨0, 0, 0⟩ meshes max_distance = none := by
    unfold cast_ray_against_buildings
    have hfold : ∀ (ms : List Mesh) (acc : ℝ × Option (ℝ × String)),
        ms.foldl
          (fun acc m =>
            match intersect_mesh (shadow_ray_origin point) ⟨0, 0, 0⟩
                m.points m.face_counts m.face_indices max_distance with
            | some hit_distance =>
                if hit_distance < acc.1 then
                  (hit_distance, some (hit_distance, m.path))
                else acc
            | none => acc)
          acc = acc := by
      intro ms
      induction ms with
      | nil => intro acc; rfl
      | cons m ms ih =>
          intro acc
          rw [List.foldl_cons]
          have hm : intersect_mesh (shadow_ray_origin point) ⟨0, 0, 0⟩
              m.points m.face_counts m.face_indices max_distance = none := by
            unfold intersect_mesh
            exact foldl_hit_step_zero_dir _ _ _ _
          simp only [hm]
          exact ih acc
    rw [hfold meshes (max_distance, none)]
  unfold is_point_in_shadow
  rw [hdir, hcast]

/-- A Möller–Trumbore hit is strictly beyond the 1e-6 epsilon: the routine
returns a distance only after the final `t > epsilon` guard. -/
theorem ray_triangle_intersect_pos (o d v0 v1 v2 : Vec3) (t : ℝ)
    (h : ray_triangle_intersect o d v0 v1 v2 = some t) : 1e-6 < t := by
  simp only [ray_triangle_intersect] at h
  split_ifs at h with h1 h2 h3 h4
  rw [Option.some_inj] at h
  subst h
  exact h4

/-- Invariant of the closest-hit fold: starting from an accumulator whose
hits satisfy `1e-6 < t < max_distance`, every produced hit does too. -/
theorem foldl_hit_step_bounds (o d : Vec3) (maxD : ℝ)
    (tris : List (Vec3 × Vec3 × Vec3)) (acc : Option ℝ)
    (hacc : ∀ c, acc = some c → 1e-6 < c ∧ c < maxD) (t : ℝ)
    (ht : tris.foldl (hit_step o d maxD) acc = some t) :
    1e-6 < t ∧ t < maxD := by
  induction tris generalizing acc with
  | nil => exact hacc t ht
  | cons tri tris ih =>
      rw [List.foldl_cons] at ht
      refine ih (hit_step o d maxD acc tri) ?_ ht
      intro c hc
      unfold hit_step at hc
      cases hmt : ray_triangle_intersect o d tri.1 tri.2.1 tri.2.2 with
      | none => rw [hmt] at hc; exact hacc c hc
      | some s =>
          rw [hmt] at hc
          replace hc : (if 0 < s ∧ s < maxD then closer acc s else acc) =
            some c := hc
          by_cases hs : 0 < s ∧ s < maxD
          · rw [if_pos hs] at hc
            cases hacc0 : acc with
            | none =>
                rw [hacc0] at hc
                replace hc : some s = some c := hc
                rw [Option.some_inj] at hc
                subst hc
                exact ⟨ray_triangle_intersect_pos o d _ _ _ s hmt, hs.2⟩
            | some c0 =>
                rw [hacc0] at hc
                replace hc : (if s < c0 then some s else some c0) =
                  some c := hc
                by_cases hlt : s < c0
                · rw [if_pos hlt] at hc
                  rw [Option.some_inj] at hc
                  subst hc
                  exact ⟨ray_triangle_intersect_pos o d _ _ _ s hmt, hs.2⟩
                · rw [if_neg hlt] at hc
                  rw [Option.some_inj] at hc
                  subst hc
                  exact hacc c0 hacc0
          · rw [if_neg hs] at hc
            exact hacc c hc

/-- `intersect_mesh` only ever reports a distance strictly between 1e-6 and
`max_distance`. -/
theorem intersect_mesh_bounds (o d : Vec3) (pts : List Vec3)
    (fcs fis : List ℕ) (maxD t : ℝ)
    (h : intersect_mesh o d pts fcs fis maxD = some t) :
    1e-6 < t ∧ t < maxD :=
  foldl_hit_step_bounds o d maxD _ none
    (by intro c hc; exact Option.noConfusion hc) t h

/-- When every triangle's intersection distance is at least `max_distance`,
the closest-hit fold never accepts anything. -/
theorem foldl_hit_step_far (o d : Vec3) (maxD : ℝ)
    (tris : List (Vec3 × Vec3 × Vec3))
    (hfar : ∀ tri ∈ tris, ∀ t,
      ray_triangle_intersect o d tri.1 tri.2.1 tri.2.2 = some t →
        maxD ≤ t)
    (acc : Option ℝ) :
    tris.foldl (hit_step o d maxD) acc = acc := by
  induction tris generalizing acc with
  | nil => rfl
  | cons tri tris ih =>
      rw [List.foldl_cons]
      have hstep : hit_step o d maxD acc tri = acc := by
        unfold hit_step
        cases hmt : ray_triangle_intersect o d tri.1 tri.2.1 tri.2.2 with
        | none => rfl
        | some s =>
            have hmax := hfar tri (by simp) s hmt
            have hns : ¬ (0 < s ∧ s < maxD) := by
              rintro ⟨-, h2⟩
              linarith
            show (if 0 < s ∧ s < maxD then closer acc s else acc) = acc
            exact if_neg hns
      rw [hstep]
      exact ih (fun tri htri => hfar tri (List.mem_cons_of_mem _ htri)) acc

/-- C2: a ray/triangle hit is accepted only when its distance t satisfies
1e-6 < t < max_distance; consequently a query point whose only
intersections with the mesh set lie at distances ≥ max_distance is reported
unshadowed. -/
theorem c2_hit_acceptance (point sun_direction : Vec3) (max_distance : ℝ)
    (meshes : List Mesh)
    (hfar : ∀ m ∈ meshes, ∀ tri ∈ mesh_triangles m.points m.face_counts
        m.face_indices, ∀ t,
      ray_triangle_intersect (shadow_ray_origin point)
        (shadow_ray_direction sun_direction) tri.1 tri.2.1 tri.2.2 =
          some t → max_distance ≤ t) :
    (∀ (o d : Vec3) (pts : List Vec3) (fcs fis : List ℕ) (t : ℝ),
        intersect_mesh o d pts fcs fis max_distance = some t →
          1e-6 < t ∧ t < max_distance) ∧
      is_point_in_shadow point sun_direction max_distance meshes =
        (false, none) := by
  refine ⟨fun o d pts fcs fis t h =>
    intersect_mesh_bounds o d pts fcs fis max_distance t h, ?_⟩
  have hcast : cast_ray_against_buildings (shadow_ray_origin point)
      (shadow_ray_direction sun_direction) meshes max_distance = none := by
    unfold cast_ray_against_buildings
    have hfold : ∀ ms : List Mesh,
        (∀ m ∈ ms, ∀ tri ∈ mesh_triangles m.points m.face_counts
            m.face_indices, ∀ t,
          ray_triangle_intersect (shadow_ray_origin point)
            (shadow_ray_direction sun_direction) tri.1 tri.2.1 tri.2.2 =
              some t → max_distance ≤ t) →
        ∀ acc : ℝ × Option (ℝ × String),
        ms.foldl
          (fun acc m =>
            match intersect_mesh (shadow_ray_origin point)
                (shadow_ray_direction sun_direction) m.points m.face_counts
                m.face_indices max_distance with
            | some hit_distance =>
                if hit_distance < acc.1 then
                  (hit_distance, some (hit_distance, m.path))
                else acc
            | none => acc)
          acc = acc := by
      intro ms
      induction ms with
      | nil => intro _ acc; rfl
      | cons m ms ih =>
          intro hms acc
          rw [List.foldl_cons]
          have hm : intersect_mesh (shadow_ray_origin point)
              (shadow_ray_direction sun_direction) m.points m.face_counts
              m.face_indices max_distance = none := by
            unfold intersect_mesh
            exact foldl_hit_step_far _ _ _ _ (hms m (by simp)) none
          simp only [hm]
          exact ih (fun m' hm' => hms m' (List.mem_cons_of_mem _ hm')) acc
    rw [hfold meshes hfar (max_distance, none)]
  unfold is_point_in_shadow
  rw [hcast]

/-- Witness for C2: a single triangle 200 m away along the ray, queried
with max_distance = 50, satisfies the far hypothesis and the query reports
unshadowed. -/
theorem c2_hit_acceptance_witness :
    (∀ m ∈ [(⟨"/World/Buildings/Building_far",
          [⟨-10, -10, 200⟩, ⟨10, -10, 200⟩, ⟨0, 20, 200⟩], [3],
          [0, 1, 2]⟩ : Mesh)],
       ∀ tri ∈ mesh_triangles m.points m.face_counts m.face_indices, ∀ t,
         ray_triangle_intersect (shadow_ray_origin ⟨0, 0, 0⟩)
           (shadow_ray_direction ⟨0, 0, -1⟩) tri.1 tri.2.1 tri.2.2 =
             some t → (50 : ℝ) ≤ t) ∧
      ((∀ (o d : Vec3) (pts : List Vec3) (fcs fis : List ℕ) (t : ℝ),
          intersect_mesh o d pts fcs fis 50 = some t →
            1e-6 < t ∧ t < 50) ∧
        is_point_in_shadow ⟨0, 0, 0⟩ ⟨0, 0, -1⟩ 50
          [(⟨"/World/Buildings/Building_far",
            [⟨-10, -10, 200⟩, ⟨10, -10, 200⟩, ⟨0, 20, 200⟩], [3],
            [0, 1, 2]⟩ : Mesh)] = (false, none)) := by
  have hdir : shadow_ray_direction ⟨0, 0, -1⟩ = ⟨0, 0, 1⟩ := by
    norm_num [shadow_ray_direction, Real.sqrt_one]
  have horig : shadow_ray_origin ⟨0, 0, 0⟩ = ⟨0, 0.1, 0⟩ := by
    norm_num [shadow_ray_origin]
  have hmt : ray_triangle_intersect ⟨0, 0.1, 0⟩ ⟨0, 0, 1⟩ ⟨-10, -10, 200⟩
      ⟨10, -10, 200⟩ ⟨0, 20, 200⟩ = some 200 := by
    norm_num [ray_triangle_intersect]
  have hfar : ∀ m ∈ [(⟨"/World/Buildings/Building_far",
        [⟨-10, -10, 200⟩, ⟨10, -10, 200⟩, ⟨0, 20, 200⟩], [3],
        [0, 1, 2]⟩ : Mesh)],
      ∀ tri ∈ mesh_triangles m.points m.face_counts m.face_indices, ∀ t,
        ray_triangle_intersect (shadow_ray_origin ⟨0, 0, 0⟩)
          (shadow_ray_direction ⟨0, 0, -1⟩) tri.1 tri.2.1 tri.2.2 =
            some t → (50 : ℝ) ≤ t := by
    intro m hm tri htri t ht
    rw [List.mem_singleton] at hm
    subst hm
    replace htri : tri ∈
        [((⟨-10, -10, 200⟩ : Vec3), (⟨10, -10, 200⟩ : Vec3),
          (⟨0, 20, 200⟩ : Vec3))] := htri
    rw [List.mem_singleton] at htri
    subst htri
    rw [hdir, horig] at ht
    replace ht : ray_triangle_intersect ⟨0, 0.1, 0⟩ ⟨0, 0, 1⟩
        ⟨-10, -10, 200⟩ ⟨10, -10, 200⟩ ⟨0, 20, 200⟩ = some t := ht
    rw [hmt, Option.some_inj] at ht
    subst ht
    norm_num
  exact ⟨hfar, c2_hit_acceptance ⟨0, 0, 0⟩ ⟨0, 0, -1⟩ 50 _ hfar⟩

/-- C9: for every grid size N ≥ 1 the grid batch returns exactly N² results
and an aggregate percentage equal to (number of shadowed results) / N² ×
100. -/
theorem c9_grid_results (center : Vec3) (grid_size : ℕ) (grid_spacing : ℝ)
    (sun_direction : Vec3) (meshes : List Mesh) (h : 1 ≤ grid_size) :
    (analyze_grid center grid_size grid_spacing sun_direction
        meshes).1.length = grid_size * grid_size ∧
      (analyze_grid center grid_size grid_spacing sun_direction meshes).2 =
        (((analyze_grid center grid_size grid_spacing sun_direction
            meshes).1.filter fun r => r.2).length : ℝ) /
          ((grid_size : ℝ) * grid_size) * 100 := by
  have hlen : (analyze_grid center grid_size grid_spacing sun_direction
      meshes).1.length = grid_size * grid_size := by
    simp only [analyze_grid]
    rw [List.length_flatMap]
    rw [show (List.length ∘ fun i : ℕ => (List.range grid_size).map
        fun j : ℕ =>
          ((⟨center.x - ((grid_size : ℝ) - 1) * grid_spacing / 2.0 +
              (i : ℝ) * grid_spacing, center.y,
            center.z - ((grid_size : ℝ) - 1) * grid_spacing / 2.0 +
              (j : ℝ) * grid_spacing⟩ : Vec3),
           (is_point_in_shadow
             ⟨center.x - ((grid_size : ℝ) - 1) * grid_spacing / 2.0 +
                (i : ℝ) * grid_spacing, center.y,
              center.z - ((grid_size : ℝ) - 1) * grid_spacing / 2.0 +
                (j : ℝ) * grid_spacing⟩ sun_direction 10000.0 meshes).1)) =
        fun _ : ℕ => grid_size by funext i; simp]
    rw [List.map_const', List.length_range, List.sum_replicate, smul_eq_mul]
  refine ⟨hlen, ?_⟩
  have h2 : (analyze_grid center grid_size grid_spacing sun_direction
      meshes).2 =
      (((analyze_grid center grid_size grid_spacing sun_direction
          meshes).1.filter fun r => r.2).length : ℝ) /
        ((analyze_grid center grid_size grid_spacing sun_direction
          meshes).1.length : ℝ) * 100 := rfl
  rw [h2, hlen]
  push_cast
  ring

/-- Witness for C9 on a 2 × 2 grid over an empty mesh set. -/
theorem c9_grid_results_witness :
    1 ≤ 2 ∧
      ((analyze_grid ⟨0, 0, 0⟩ 2 1 ⟨0, -1, 0⟩ []).1.length = 2 * 2 ∧
        (analyze_grid ⟨0, 0, 0⟩ 2 1 ⟨0, -1, 0⟩ []).2 =
          (((analyze_grid ⟨0, 0, 0⟩ 2 1 ⟨0, -1, 0⟩ []).1.filter
              fun r => r.2).length : ℝ) / ((2 : ℝ) * 2) * 100) :=
  ⟨by norm_num, c9_grid_results ⟨0, 0, 0⟩ 2 1 ⟨0, -1, 0⟩ [] (by norm_num)⟩

/-- `some a >>= f` computes to `f a`. -/
theorem opt_bind_some {α β : Type} (a : α) (f : α → Option β) :
    (do let x ← some a; f x) = f a := rfl

/-- `math.asin` succeeds on arguments within `[-1, 1]`. -/
theorem pyasin_of_abs_le {x : ℝ} (h : |x| ≤ 1) :
    pyasin x = some (Real.arcsin x) := by
  unfold pyasin
  exact if_pos h

/-- `math.acos` succeeds on arguments within `[-1, 1]`. -/
theorem pyacos_of_abs_le {x : ℝ} (h : |x| ≤ 1) :
    pyacos x = some (Real.arccos x) := by
  unfold pyacos
  exact if_pos h

/-- The clamp always lands in `[-1, 1]`. -/
theorem abs_clamp1_le_one (x : ℝ) : |clamp1 x| ≤ 1 := by
  norm_num [clamp1, abs_le]

/-- Clamping an argument already in `[-1, 1]` changes nothing. -/
theorem clamp1_eq_of_abs_le {x : ℝ} (h : |x| ≤ 1) : clamp1 x = x := by
  rw [abs_le] at h
  norm_num [clamp1]
  rw [min_eq_right h.2, max_eq_right h.1]

/-- The declination argument `sin ε · sin λ` is within `[-1, 1]`. -/
theorem abs_sin_mul_sin_le_one (a b : ℝ) :
    |Real.sin a * Real.sin b| ≤ 1 := by
  rw [abs_mul]
  have h1 : |Real.sin a| ≤ 1 :=
    abs_le.mpr ⟨Real.neg_one_le_sin a, Real.sin_le_one a⟩
  have h2 : |Real.sin b| ≤ 1 :=
    abs_le.mpr ⟨Real.neg_one_le_sin b, Real.sin_le_one b⟩
  nlinarith [abs_nonneg (Real.sin a), abs_nonneg (Real.sin b)]

/-- The elevation sine `sin φ sin δ + cos φ cos δ cos H` is within
`[-1, 1]`: it is the cosine of the angle between two unit directions. -/
theorem abs_sin_el_le_one (a b c : ℝ) :
    |Real.sin a * Real.sin b + Real.cos a * Real.cos b * Real.cos c| ≤
      1 := by
  rw [← sq_le_one_iff_abs_le_one]
  have h1 := Real.sin_sq_add_cos_sq a
  have h2 := Real.sin_sq_add_cos_sq b
  have hcc : Real.cos c ^ 2 ≤ 1 := by
    nlinarith [Real.neg_one_le_cos c, Real.cos_le_one c]
  have h5 : 0 ≤ Real.cos b ^ 2 * (1 - Real.cos c ^ 2) :=
    mul_nonneg (sq_nonneg _) (by linarith)
  nlinarith [sq_nonneg (Real.sin a * Real.cos b * Real.cos c -
    Real.cos a * Real.sin b)]

/-- C8: every inverse-trigonometric argument inside the sun-position
calculation lies in [-1, 1] when it is evaluated, so evaluating with all of
them clamped (as the spec words it) yields the same value, and for every
latitude, longitude and UTC instant the calculation is total — it returns
`some` result and never fails. -/
theorem c8_sun_position_total (latitude longitude : ℝ)
    (year month day hour minute second : ℤ) :
    calculate_sun_position latitude longitude year month day hour minute
        second =
      some (calculate_sun_position_clamped latitude longitude year month
        day hour minute second) := by
  unfold calculate_sun_position calculate_sun_position_clamped
  simp only []
  rw [pyasin_of_abs_le (abs_sin_mul_sin_le_one _ _), opt_bind_some]
  rw [pyasin_of_abs_le (abs_sin_el_le_one _ _ _), opt_bind_some,
    opt_bind_some]
  rw [pyacos_of_abs_le (abs_clamp1_le_one _), opt_bind_some]
  rw [clamp1_eq_of_abs_le (abs_sin_mul_sin_le_one _ _)]
  rw [clamp1_eq_of_abs_le (abs_sin_el_le_one _ _ _)]

end Sunside
